import Mathlib

/-!
Shallow embedding of `src/modules/local_position_estimator/sensors/flow.cpp`
(optical-flow sensor fusion module of the local position estimator) and
verification of its specification.

Floating-point arithmetic is modelled over `ℝ`; timestamps (microseconds,
unsigned integers in the source) over `ℕ` with truncated subtraction, matching
unsigned subtraction for a monotone clock.  The state dimension `n_x`, the
velocity state indices `X_vx`, `X_vy`, the beta-threshold table entry, the
disable fault level, the high-pass filters and the correction limiter live in
other translation units; they are abstracted as parameters (see `Env`).
-/

namespace LPE

open Matrix

/-- `REQ_FLOW_INIT_COUNT`: samples required before the sensor initializes. -/
def REQ_FLOW_INIT_COUNT : ℕ := 10

/-- `FLOW_TIMEOUT`: 1 s, in microseconds. -/
def FLOW_TIMEOUT : ℕ := 1000000

/-- `flow_min_agl`: minimum flow altitude. -/
noncomputable def flow_min_agl : ℝ := 0.3

/-- Fault ladder bottom level (`FAULT_NONE`), encoded as `0` on the ordered ladder. -/
def FAULT_NONE : ℕ := 0

/-- Fault ladder level `FAULT_MINOR`, encoded as `1`. -/
def FAULT_MINOR : ℕ := 1

/-- Modelled from the spec: the quality-statistics accumulator (`BlockStats`,
declared outside `src/`): running count / mean / standard deviation of a
scalar quality signal, resettable; only the count drives control flow here. -/
structure QStats where
  count : ℕ
  sum : ℝ
  sumSq : ℝ

/-- Modelled from the spec: fold one sample into the running statistics,
incrementing the count by exactly one. -/
def QStats.update (s : QStats) (v : ℝ) : QStats :=
  ⟨s.count + 1, s.sum + v, s.sumSq + v * v⟩

/-- Modelled from the spec: `reset()` zeroes all statistics. -/
def QStats.reset : QStats := ⟨0, 0, 0⟩

/-- Modelled from the spec: running mean accessor. -/
noncomputable def QStats.mean (s : QStats) : ℝ := s.sum / s.count

/-- Modelled from the spec: running standard-deviation accessor. -/
noncomputable def QStats.stdDev (s : QStats) : ℝ :=
  Real.sqrt (s.sumSq / s.count - s.mean * s.mean)

/-- The attitude subscription `_sub_att`: roll/pitch (rad), body-to-nav
rotation matrix `R`, and body angular rates. -/
structure AttSub where
  roll : ℝ
  pitch : ℝ
  R : Matrix (Fin 3) (Fin 3) ℝ
  rollspeed : ℝ
  pitchspeed : ℝ
  yawspeed : ℝ

/-- The optical-flow subscription `_sub_flow`: quality, integrated flow and
gyro angles, and the integration timespan in microseconds. -/
structure FlowSub where
  quality : ℝ
  pixel_flow_x_integral : ℝ
  pixel_flow_y_integral : ℝ
  gyro_x_rate_integral : ℝ
  gyro_y_rate_integral : ℝ
  integration_timespan : ℝ

/-- The per-cycle read-only inputs of the module: attitude, raw flow sample,
height above ground `agl()`, the terrain-validity flag `_validTZ`, and the
current cycle timestamp `_timeStamp`. -/
structure FlowInput where
  att : AttSub
  flow : FlowSub
  agl : ℝ
  validTZ : Bool
  timeStamp : ℕ

/-- Configuration parameters read through `.get()`: minimum quality,
gyro-compensation enable, and the three noise-model coefficients. -/
structure FlowConfig where
  flow_min_q : ℝ
  flow_gyro_comp : Bool
  flow_vxy_stddev : ℝ
  flow_vxy_d_stddev : ℝ
  flow_vxy_r_stddev : ℝ

/-- Modelled from the spec: external collaborators declared outside `src/` —
the high-pass filter update (state, input ↦ output, new state), the
correction limiter `correctionLogic`, the chi-square threshold
`BETA_TABLE[n_y_flow]`, the disable fault level `fault_lvl_disable` on the
ordered ladder, and the velocity state indices `X_vx`, `X_vy` of the
`n`-dimensional shared state. -/
structure Env (n : ℕ) where
  hpUpdate : ℝ → ℝ → ℝ × ℝ
  correctionLogic : (Fin n → ℝ) → (Fin n → ℝ)
  beta_table : ℝ
  fault_lvl_disable : ℕ
  X_vx : Fin n
  X_vy : Fin n

/-- The module's own health/filter state: quality statistics,
`_flowInitialized`, `_flowFault`, `_time_last_flow`, and the two high-pass
filter states. -/
structure FlowState where
  flowQStats : QStats
  flowInitialized : Bool
  flowFault : ℕ
  time_last_flow : ℕ
  hp_x : ℝ
  hp_y : ℝ

/-- Diagnostic events emitted through the mavlink log. -/
inductive LogEvent where
  | initInfo (mean stddev : ℝ)
  | timeoutCritical

/-- The estimator state visible to this module: shared state vector `_x`,
shared covariance `_P`, the module's own state, and the published innovation
telemetry `flow_innov` / `flow_innov_var`. -/
structure Est (n : ℕ) where
  x : Fin n → ℝ
  P : Matrix (Fin n) (Fin n) ℝ
  flow : FlowState
  flow_innov : Fin 2 → ℝ
  flow_innov_var : Fin 2 → ℝ

variable {n : ℕ}

/-- Ground distance to image center: `d = agl * cos(roll) * cos(pitch)`
(line 67, recomputed at line 130). -/
noncomputable def flow_d (inp : FlowInput) : ℝ :=
  inp.agl * Real.cos inp.att.roll * Real.cos inp.att.pitch

/-- Integration span in seconds (line 72). -/
noncomputable def dt_flow (inp : FlowInput) : ℝ :=
  inp.flow.integration_timespan / 1.0e6

/-- `flowMeasure` (lines 43–113): the ordered validity gate followed by the
velocity observation.  Returns `none` on rejection (status `-1`) together
with the unchanged module state, or `some y` (status `OK`) with the updated
module state (filters, `_time_last_flow`, quality statistics). -/
noncomputable def flowMeasure (env : Env n) (cfg : FlowConfig) (inp : FlowInput)
    (s : FlowState) : Option (Fin 2 → ℝ) × FlowState :=
  -- check for sane pitch/roll (signed comparison, as in the source)
  if inp.att.roll > 0.5 ∨ inp.att.pitch > 0.5 then (none, s)
  -- check for agl
  else if inp.agl < flow_min_agl then (none, s)
  -- check quality
  else if inp.flow.quality < cfg.flow_min_q then (none, s)
  -- terrain range validity
  else if inp.validTZ = false then (none, s)
  else if dt_flow inp > 0.5 ∨ dt_flow inp < 1.0e-6 then (none, s)
  else
    let d := flow_d inp
    let flow_x_rad := inp.flow.pixel_flow_x_integral
    let flow_y_rad := inp.flow.pixel_flow_y_integral
    -- angular rotation compensation through the high-pass filters
    let gyro_x_rad : ℝ :=
      if cfg.flow_gyro_comp then (env.hpUpdate s.hp_x inp.flow.gyro_x_rate_integral).1 else 0
    let gyro_y_rad : ℝ :=
      if cfg.flow_gyro_comp then (env.hpUpdate s.hp_y inp.flow.gyro_y_rate_integral).1 else 0
    let s1 :=
      if cfg.flow_gyro_comp then
        { s with hp_x := (env.hpUpdate s.hp_x inp.flow.gyro_x_rate_integral).2,
                 hp_y := (env.hpUpdate s.hp_y inp.flow.gyro_y_rate_integral).2 }
      else s
    -- displacement in camera (= body) frame
    let delta_b : Fin 3 → ℝ :=
      ![-(flow_x_rad - gyro_x_rad) * d, -(flow_y_rad - gyro_y_rad) * d, 0]
    -- rotate into nav frame
    let delta_n := inp.att.R.mulVec delta_b
    -- timestamp flow even if distance is bad
    let s2 := { s1 with time_last_flow := inp.timeStamp }
    let y : Fin 2 → ℝ := ![delta_n 0 / dt_flow inp, delta_n 1 / dt_flow inp]
    let s3 := { s2 with flowQStats := s2.flowQStats.update inp.flow.quality }
    (some y, s3)

/-- The conjunction of the five validity gates of `flowMeasure`,
in the source's exact (signed) form. -/
def flowGatesPass (cfg : FlowConfig) (inp : FlowInput) : Prop :=
  ¬(inp.att.roll > 0.5 ∨ inp.att.pitch > 0.5) ∧
  ¬(inp.agl < flow_min_agl) ∧
  ¬(inp.flow.quality < cfg.flow_min_q) ∧
  ¬(inp.validTZ = false) ∧
  ¬(dt_flow inp > 0.5 ∨ dt_flow inp < 1.0e-6)

/-- `flowInit` (lines 16–35): attempt a measurement; on failure reset the
statistics; on success transition to initialized once the count exceeds
`REQ_FLOW_INIT_COUNT`, clearing the fault level and logging the quality. -/
noncomputable def flowInit (env : Env n) (cfg : FlowConfig) (inp : FlowInput)
    (s : FlowState) : FlowState × List LogEvent :=
  match flowMeasure env cfg inp s with
  | (none, s') => ({ s' with flowQStats := QStats.reset }, [])
  | (some _, s') =>
    if s'.flowQStats.count > REQ_FLOW_INIT_COUNT then
      ({ s' with flowInitialized := true, flowFault := FAULT_NONE },
       [LogEvent.initInfo s'.flowQStats.mean s'.flowQStats.stdDev])
    else (s', [])

/-- `flowDeinit` (lines 37–41): clear the initialized flag and the statistics. -/
def flowDeinit (s : FlowState) : FlowState :=
  { s with flowInitialized := false, flowQStats := QStats.reset }

/-- `flowCheckTimeout` (lines 177–185): deinitialize and log critically when
more than `FLOW_TIMEOUT` has elapsed since the last accepted measurement,
but only if currently initialized. -/
def flowCheckTimeout (timeStamp : ℕ) (s : FlowState) : FlowState × List LogEvent :=
  if timeStamp - s.time_last_flow > FLOW_TIMEOUT then
    if s.flowInitialized then (flowDeinit s, [LogEvent.timeoutCritical])
    else (s, [])
  else (s, [])

/-- The flow measurement matrix `C` (lines 123–126): zero except
`C(Y_flow_vx, X_vx) = 1` and `C(Y_flow_vy, X_vy) = 1`. -/
def flowC (env : Env n) : Matrix (Fin 2) (Fin n) ℝ :=
  Matrix.of fun i j =>
    if i = 0 ∧ j = env.X_vx then 1
    else if i = 1 ∧ j = env.X_vy then 1
    else 0

/-- Euclidean norm of the three body angular rates (lines 131–133). -/
noncomputable def rot_rate_norm (inp : FlowInput) : ℝ :=
  Real.sqrt (inp.att.rollspeed * inp.att.rollspeed
    + inp.att.pitchspeed * inp.att.pitchspeed
    + inp.att.yawspeed * inp.att.yawspeed)

/-- The per-cycle measurement standard deviation `flow_vxy_stddev`
(lines 134–136). -/
noncomputable def flowStddev (cfg : FlowConfig) (inp : FlowInput) : ℝ :=
  cfg.flow_vxy_stddev + cfg.flow_vxy_d_stddev * flow_d inp
    + cfg.flow_vxy_r_stddev * rot_rate_norm inp

/-- The per-cycle noise covariance `R` (lines 128–138): diagonal, both
entries `flow_vxy_stddev²`. -/
noncomputable def flowRmatrix (cfg : FlowConfig) (inp : FlowInput) :
    Matrix (Fin 2) (Fin 2) ℝ :=
  Matrix.diagonal fun _ => flowStddev cfg inp * flowStddev cfg inp

/-- The residual covariance `S = C·P·Cᵗ + R` (line 149, before inversion). -/
noncomputable def flowS (env : Env n) (cfg : FlowConfig) (inp : FlowInput)
    (est : Est n) : Matrix (Fin 2) (Fin 2) ℝ :=
  flowC env * est.P * (flowC env).transpose + flowRmatrix cfg inp

/-- The fault-detection statistic `beta = rᵗ·S⁻¹·r` (line 152) for a given
observation `y`, with `r = y - C·x` taken against the pre-update state. -/
noncomputable def flowBetaAt (env : Env n) (cfg : FlowConfig) (inp : FlowInput)
    (est : Est n) (y : Fin 2 → ℝ) : ℝ :=
  let r := y - (flowC env).mulVec est.x
  dotProduct r ((flowS env cfg inp est)⁻¹.mulVec r)

/-- The fault-level hysteresis of lines 154–163: raise to `FAULT_MINOR` when
`beta` exceeds the table threshold (never downgrading a higher level), else
reset a non-zero level to `FAULT_NONE`. -/
noncomputable def faultUpdate (beta thresh : ℝ) (f : ℕ) : ℕ :=
  if beta > thresh then
    if f < FAULT_MINOR then FAULT_MINOR else f
  else if f ≠ 0 then FAULT_NONE else f

/-- `flowCorrect` (lines 115–175): measure, publish innovation telemetry,
detect faults, and — when the fault level is below the disable threshold —
apply the Kalman correction to the shared state and covariance. -/
noncomputable def flowCorrect (env : Env n) (cfg : FlowConfig) (inp : FlowInput)
    (est : Est n) : Est n :=
  match flowMeasure env cfg inp est.flow with
  | (none, s') => { est with flow := s' }
  | (some y, s') =>
    let C := flowC env
    let Rm := flowRmatrix cfg inp
    -- residual and published telemetry
    let r := y - C.mulVec est.x
    let est1 := { est with
      flow := s'
      flow_innov := r
      flow_innov_var := fun i => Rm i i }
    -- residual covariance inverse
    let S_I := (flowS env cfg inp est)⁻¹
    -- fault detection
    let beta := dotProduct r (S_I.mulVec r)
    let fault' := faultUpdate beta env.beta_table s'.flowFault
    let est2 := { est1 with flow := { s' with flowFault := fault' } }
    if fault' < env.fault_lvl_disable then
      let K := est.P * C.transpose * S_I
      let dx := env.correctionLogic (K.mulVec r)
      { est2 with x := est2.x + dx, P := est2.P - K * C * est2.P }
    else est2

/-! ### Concrete test fixtures

A two-dimensional shared state (`n_x = 2`, velocity components at indices 0
and 1) with concrete configuration and a nominal input sample, used to
exercise the theorems on explicit values. -/

/-- Concrete environment: identity correction limiter, beta threshold 1/2,
disable level 2 on the fault ladder, velocity states at indices 0 and 1. -/
noncomputable def env2 : Env 2 :=
  { hpUpdate := fun st v => (v - st, v)
    correctionLogic := id
    beta_table := 1/2
    fault_lvl_disable := 2
    X_vx := 0
    X_vy := 1 }

/-- Concrete configuration: minimum quality 50, gyro compensation off, unit
base standard deviation, zero range/rate coefficients. -/
noncomputable def cfg0 : FlowConfig :=
  { flow_min_q := 50
    flow_gyro_comp := false
    flow_vxy_stddev := 1
    flow_vxy_d_stddev := 0
    flow_vxy_r_stddev := 0 }

/-- Level attitude with identity rotation matrix and zero body rates. -/
noncomputable def att0 : AttSub :=
  { roll := 0, pitch := 0, R := 1, rollspeed := 0, pitchspeed := 0, yawspeed := 0 }

/-- Nominal flow sample: quality 100, flow angle x = 0.01 rad,
integration timespan 10000 µs = 0.01 s. -/
noncomputable def flow0 : FlowSub :=
  { quality := 100
    pixel_flow_x_integral := 0.01
    pixel_flow_y_integral := 0
    gyro_x_rate_integral := 0
    gyro_y_rate_integral := 0
    integration_timespan := 10000 }

/-- Nominal input: height above ground 1.0, valid terrain, cycle time 777. -/
noncomputable def inp0 : FlowInput :=
  { att := att0, flow := flow0, agl := 1, validTZ := true, timeStamp := 777 }

/-- An arbitrary module state to start from. -/
noncomputable def fs0 : FlowState :=
  { flowQStats := QStats.reset
    flowInitialized := false
    flowFault := 0
    time_last_flow := 0
    hp_x := 0
    hp_y := 0 }

/-- Estimator fixture with zero state and zero covariance. -/
noncomputable def est00 : Est 2 :=
  { x := 0, P := 0, flow := fs0, flow_innov := 0, flow_innov_var := 0 }

/-- Estimator fixture with zero state and identity covariance. -/
noncomputable def est01 : Est 2 :=
  { x := 0, P := 1, flow := fs0, flow_innov := 0, flow_innov_var := 0 }

/-! ### Additional fixtures for the claims -/

/-- Nominal input with roll −1 rad (beyond −0.5 in magnitude). -/
noncomputable def inpNegRoll : FlowInput :=
  { inp0 with att := { att0 with roll := -1 } }

/-- Nominal input with roll 1 rad (beyond the positive bound). -/
noncomputable def inpBigRoll : FlowInput :=
  { inp0 with att := { att0 with roll := 1 } }

/-- Nominal input with height above ground 0.2 (below the 0.3 minimum). -/
noncomputable def inpLowAgl : FlowInput :=
  { inp0 with agl := 0.2 }

/-- Module state with ten accumulated quality samples. -/
noncomputable def fs10 : FlowState :=
  { fs0 with flowQStats := ⟨10, 1000, 100000⟩ }

/-- Initialized module state with last flow at time 0. -/
noncomputable def fsInit : FlowState :=
  { fs0 with flowInitialized := true }

/-- Zero state / zero covariance estimator whose module fault level is 3
(above the fixture's disable threshold 2). -/
noncomputable def est03 : Est 2 :=
  { est00 with flow := { fs0 with flowFault := 3 } }

/-- Configuration with unit base standard deviation and unit range
coefficient (both admissible under the spec's "positive base, non-negative
coefficients"). -/
noncomputable def cfg9 : FlowConfig :=
  { flow_min_q := 50
    flow_gyro_comp := false
    flow_vxy_stddev := 1
    flow_vxy_d_stddev := 1
    flow_vxy_r_stddev := 0 }

/-- Nominal input with roll = −π: it passes the signed attitude gate
(−π < 0.5) yet has cos(roll) = −1, making the ground distance negative. -/
noncomputable def inp9 : FlowInput :=
  { att := { att0 with roll := -Real.pi }
    flow := flow0
    agl := 1
    validTZ := true
    timeStamp := 777 }

/-! ### Basic characterizations of `flowMeasure` -/

/-- The measurement is rejected exactly when one of the validity gates fails. -/
theorem flowMeasure_none_iff (env : Env n) (cfg : FlowConfig) (inp : FlowInput)
    (s : FlowState) :
    (flowMeasure env cfg inp s).1 = none ↔ ¬ flowGatesPass cfg inp := by
  unfold flowMeasure flowGatesPass
  split_ifs with h1 h2 h3 h4 h5 <;> simp_all

/-- On rejection the module state is left untouched. -/
theorem flowMeasure_none_frame (env : Env n) (cfg : FlowConfig) (inp : FlowInput)
    (s : FlowState) (h : (flowMeasure env cfg inp s).1 = none) :
    (flowMeasure env cfg inp s).2 = s := by
  unfold flowMeasure at *
  split_ifs at h ⊢ <;> simp_all

/-- `flowMeasure` never touches the fault level. -/
theorem flowMeasure_flowFault (env : Env n) (cfg : FlowConfig) (inp : FlowInput)
    (s : FlowState) :
    ((flowMeasure env cfg inp s).2).flowFault = s.flowFault := by
  unfold flowMeasure
  split_ifs <;> rfl

/-- `flowMeasure` never touches the initialized flag. -/
theorem flowMeasure_flowInitialized (env : Env n) (cfg : FlowConfig)
    (inp : FlowInput) (s : FlowState) :
    ((flowMeasure env cfg inp s).2).flowInitialized = s.flowInitialized := by
  unfold flowMeasure
  split_ifs <;> rfl

/-- On success the quality statistics are folded with the sample's quality. -/
theorem flowMeasure_some_stats (env : Env n) (cfg : FlowConfig) (inp : FlowInput)
    (s : FlowState) (y : Fin 2 → ℝ)
    (h : (flowMeasure env cfg inp s).1 = some y) :
    ((flowMeasure env cfg inp s).2).flowQStats
      = s.flowQStats.update inp.flow.quality := by
  unfold flowMeasure at *
  split_ifs at h ⊢ <;> simp_all

/-- Evaluation of `flowMeasure` on the nominal scenario: success with
navigation-frame velocity `(-1, 0)`. -/
theorem flowMeasure_inp0 (env : Env n) (s : FlowState) :
    flowMeasure env cfg0 inp0 s =
      (some ![(-1 : ℝ), 0],
       { s with time_last_flow := 777,
                flowQStats := s.flowQStats.update 100 }) := by
  have h1 : ¬(inp0.att.roll > 0.5 ∨ inp0.att.pitch > 0.5) := by
    simp [inp0, att0]; norm_num
  have h2 : ¬(inp0.agl < flow_min_agl) := by
    simp [inp0, flow_min_agl]; norm_num
  have h3 : ¬(inp0.flow.quality < cfg0.flow_min_q) := by
    simp [inp0, flow0, cfg0]; norm_num
  have h4 : ¬(inp0.validTZ = false) := by simp [inp0]
  have hdt : dt_flow inp0 = 0.01 := by
    simp [dt_flow, inp0, flow0]; norm_num
  have h5 : ¬(dt_flow inp0 > 0.5 ∨ dt_flow inp0 < 1.0e-6) := by
    rw [hdt]; norm_num
  have hcomp : cfg0.flow_gyro_comp = false := rfl
  have hd : flow_d inp0 = 1 := by
    simp [flow_d, inp0, att0, Real.cos_zero]
  unfold flowMeasure
  rw [if_neg h1, if_neg h2, if_neg h3, if_neg h4, if_neg h5]
  simp only [hcomp, Bool.false_eq_true, if_false, hd, hdt]
  have hR : inp0.att.R = 1 := rfl
  rw [hR]
  have hq : inp0.flow.quality = 100 := rfl
  have hts : inp0.timeStamp = 777 := rfl
  rw [hq, hts]
  refine Prod.ext ?_ rfl
  simp only [Matrix.one_mulVec]
  congr 1
  funext i
  fin_cases i
  · simp only [Matrix.cons_val_zero]
    simp [inp0, flow0]
    norm_num
  · simp only [Matrix.cons_val_one]
    simp [inp0, flow0]

/-- Success is equivalent to all validity gates passing. -/
theorem flowMeasure_isSome_iff (env : Env n) (cfg : FlowConfig) (inp : FlowInput)
    (s : FlowState) :
    ((flowMeasure env cfg inp s).1).isSome = true ↔ flowGatesPass cfg inp := by
  rw [← not_iff_not]
  simp only [Option.not_isSome_iff_eq_none, flowMeasure_none_iff, not_not]

/-- In the two-dimensional fixture the measurement matrix is the identity. -/
theorem flowC_env2 : flowC env2 = 1 := by
  ext i j
  fin_cases i <;> fin_cases j <;> simp [flowC, env2, Matrix.one_apply]

/-- The fixture noise covariance is the identity. -/
theorem flowRmatrix_cfg0 : flowRmatrix cfg0 inp0 = 1 := by
  have h : flowStddev cfg0 inp0 = 1 := by
    simp [flowStddev, cfg0]
  rw [flowRmatrix, h]
  simp [Matrix.diagonal_one]

/-- Residual covariance of any zero-covariance two-dimensional estimator
on the nominal fixture: the identity. -/
theorem flowS_zeroP (est : Est 2) (hP : est.P = 0) :
    flowS env2 cfg0 inp0 est = 1 := by
  rw [flowS, flowC_env2, flowRmatrix_cfg0, hP]
  simp

/-- Residual covariance of any identity-covariance two-dimensional estimator
on the nominal fixture: `1 + 1`, with diagonal entries 2. -/
theorem flowS_oneP (est : Est 2) (hP : est.P = 1) :
    flowS env2 cfg0 inp0 est = 1 + 1 := by
  rw [flowS, flowC_env2, flowRmatrix_cfg0, hP]
  simp

/-- Beta statistic of the nominal observation against a zero state and zero
covariance: `(-1, 0)·1·(-1, 0)ᵗ = 1`. -/
theorem flowBetaAt_zero (est : Est 2) (hx : est.x = 0) (hP : est.P = 0) :
    flowBetaAt env2 cfg0 inp0 est ![(-1 : ℝ), 0] = 1 := by
  rw [flowBetaAt, flowC_env2, flowS_zeroP est hP, hx]
  simp [Matrix.one_mulVec, dotProduct, Fin.sum_univ_two]

/-! ### Structural lemmas about `flowCorrect` -/

/-- On a rejected measurement, `flowCorrect` is the identity on the whole
estimator state. -/
theorem flowCorrect_none (env : Env n) (cfg : FlowConfig) (inp : FlowInput)
    (est : Est n) (h : (flowMeasure env cfg inp est.flow).1 = none) :
    flowCorrect env cfg inp est = est := by
  have hfr := flowMeasure_none_frame env cfg inp est.flow h
  rcases hm : flowMeasure env cfg inp est.flow with ⟨o, s'⟩
  rw [hm] at h hfr
  simp only at h hfr
  subst h
  unfold flowCorrect
  rw [hm, hfr]

/-- On a successful measurement the resulting fault level is the hysteresis
update of the previous one by the beta statistic. -/
theorem flowCorrect_flowFault (env : Env n) (cfg : FlowConfig) (inp : FlowInput)
    (est : Est n) (y : Fin 2 → ℝ)
    (h : (flowMeasure env cfg inp est.flow).1 = some y) :
    (flowCorrect env cfg inp est).flow.flowFault
      = faultUpdate (flowBetaAt env cfg inp est y) env.beta_table
          est.flow.flowFault := by
  have hff := flowMeasure_flowFault env cfg inp est.flow
  rcases hm : flowMeasure env cfg inp est.flow with ⟨o, s'⟩
  rw [hm] at h hff
  simp only at h hff
  subst h
  unfold flowCorrect flowBetaAt
  rw [hm]
  simp only [← hff]
  split_ifs <;> rfl

/-- On a successful measurement the innovation telemetry holds the residual
`r = y - C·x` (against the pre-update state) and the diagonal of the noise
covariance `R`, whatever the fault outcome. -/
theorem flowCorrect_telemetry (env : Env n) (cfg : FlowConfig) (inp : FlowInput)
    (est : Est n) (y : Fin 2 → ℝ)
    (h : (flowMeasure env cfg inp est.flow).1 = some y) :
    (flowCorrect env cfg inp est).flow_innov = y - (flowC env).mulVec est.x ∧
    (flowCorrect env cfg inp est).flow_innov_var
      = fun i => flowRmatrix cfg inp i i := by
  rcases hm : flowMeasure env cfg inp est.flow with ⟨o, s'⟩
  rw [hm] at h
  simp only at h
  subst h
  unfold flowCorrect
  rw [hm]
  dsimp only
  constructor <;> (split_ifs <;> rfl)

/-- When the post-detection fault level reaches the disable threshold, the
shared state vector and covariance are untouched. -/
theorem flowCorrect_suppressed (env : Env n) (cfg : FlowConfig) (inp : FlowInput)
    (est : Est n) (y : Fin 2 → ℝ)
    (h : (flowMeasure env cfg inp est.flow).1 = some y)
    (hf : env.fault_lvl_disable ≤
        faultUpdate (flowBetaAt env cfg inp est y) env.beta_table
          est.flow.flowFault) :
    (flowCorrect env cfg inp est).x = est.x ∧
    (flowCorrect env cfg inp est).P = est.P := by
  have hff := flowMeasure_flowFault env cfg inp est.flow
  rcases hm : flowMeasure env cfg inp est.flow with ⟨o, s'⟩
  rw [hm] at h hff
  simp only at h hff
  subst h
  rw [← hff] at hf
  unfold flowCorrect flowBetaAt at *
  rw [hm]
  simp only
  rw [if_neg (not_lt.2 hf)]
  exact ⟨rfl, rfl⟩

/-- On a successful measurement the quality statistics accumulate through
`flowCorrect` exactly as through `flowMeasure`. -/
theorem flowCorrect_stats (env : Env n) (cfg : FlowConfig) (inp : FlowInput)
    (est : Est n) (y : Fin 2 → ℝ)
    (h : (flowMeasure env cfg inp est.flow).1 = some y) :
    (flowCorrect env cfg inp est).flow.flowQStats
      = est.flow.flowQStats.update inp.flow.quality := by
  have hst := flowMeasure_some_stats env cfg inp est.flow y h
  rcases hm : flowMeasure env cfg inp est.flow with ⟨o, s'⟩
  rw [hm] at h hst
  simp only at h hst
  subst h
  unfold flowCorrect
  rw [hm]
  dsimp only
  split_ifs <;> exact hst

/-! ### Claims -/

/-- C2, corrected, counterexample: a sample with roll = −1 rad (magnitude
beyond 0.5) is NOT rejected — the source compares the signed value to the
positive bound, so only positive excursions are rejected. -/
theorem C2_counterexample :
    inpNegRoll.att.roll = -1 ∧
    (flowMeasure env2 cfg0 inpNegRoll fs0).1.isSome = true := by
  refine ⟨rfl, ?_⟩
  rw [flowMeasure_isSome_iff]
  refine ⟨?_, ?_, ?_, ?_, ?_⟩
  · show ¬((-1 : ℝ) > 0.5 ∨ (0 : ℝ) > 0.5)
    norm_num
  · show ¬((1 : ℝ) < flow_min_agl)
    rw [flow_min_agl]; norm_num
  · show ¬((100 : ℝ) < (50 : ℝ))
    norm_num
  · show ¬(true = false)
    simp
  · show ¬(dt_flow inpNegRoll > 0.5 ∨ dt_flow inpNegRoll < 1.0e-6)
    have : dt_flow inpNegRoll = 0.01 := by
      show (10000 : ℝ) / 1.0e6 = 0.01
      norm_num
    rw [this]; norm_num

/-- C2, amended: `flowMeasure` rejects a sample (returning failure, with the
module state untouched) whenever roll exceeds 0.5 rad or pitch exceeds
0.5 rad as a signed comparison; attitudes below −0.5 rad are not rejected
by this gate. -/
theorem C2_amended (env : Env n) (cfg : FlowConfig) (inp : FlowInput)
    (s : FlowState) (h : inp.att.roll > 0.5 ∨ inp.att.pitch > 0.5) :
    (flowMeasure env cfg inp s).1 = none ∧ (flowMeasure env cfg inp s).2 = s := by
  have hng : ¬ flowGatesPass cfg inp := fun hg => hg.1 h
  have h0 := (flowMeasure_none_iff env cfg inp s).2 hng
  exact ⟨h0, flowMeasure_none_frame env cfg inp s h0⟩

/-- C2 witness: the amended gate at roll = 1 rad. -/
theorem C2_amended_witness :
    (inpBigRoll.att.roll > 0.5 ∨ inpBigRoll.att.pitch > 0.5) ∧
    (flowMeasure env2 cfg0 inpBigRoll fs0).1 = none := by
  have h : inpBigRoll.att.roll > 0.5 ∨ inpBigRoll.att.pitch > 0.5 := by
    left; show (1 : ℝ) > 0.5; norm_num
  exact ⟨h, (C2_amended env2 cfg0 inpBigRoll fs0 h).1⟩

/-- C4, confirmed: when any validity gate fails — attitude bound, minimum
height above ground, minimum quality, height-validity flag, or integration
span bounds — the shared state vector and covariance are unchanged by
`flowCorrect`. -/
theorem C4_gate_failure_frame (env : Env n) (cfg : FlowConfig) (inp : FlowInput)
    (est : Est n)
    (h : (inp.att.roll > 0.5 ∨ inp.att.pitch > 0.5) ∨
         inp.agl < flow_min_agl ∨
         inp.flow.quality < cfg.flow_min_q ∨
         inp.validTZ = false ∨
         (dt_flow inp > 0.5 ∨ dt_flow inp < 1.0e-6)) :
    (flowCorrect env cfg inp est).x = est.x ∧
    (flowCorrect env cfg inp est).P = est.P := by
  have hng : ¬ flowGatesPass cfg inp := by
    unfold flowGatesPass; tauto
  have h0 := (flowMeasure_none_iff env cfg inp est.flow).2 hng
  rw [flowCorrect_none env cfg inp est h0]
  exact ⟨rfl, rfl⟩

/-- C4 witness: height above ground 0.2 < 0.3 leaves state and covariance
unchanged. -/
theorem C4_witness :
    ((inpLowAgl.att.roll > 0.5 ∨ inpLowAgl.att.pitch > 0.5) ∨
     inpLowAgl.agl < flow_min_agl ∨
     inpLowAgl.flow.quality < cfg0.flow_min_q ∨
     inpLowAgl.validTZ = false ∨
     (dt_flow inpLowAgl > 0.5 ∨ dt_flow inpLowAgl < 1.0e-6)) ∧
    (flowCorrect env2 cfg0 inpLowAgl est00).x = est00.x ∧
    (flowCorrect env2 cfg0 inpLowAgl est00).P = est00.P := by
  have h : (inpLowAgl.att.roll > 0.5 ∨ inpLowAgl.att.pitch > 0.5) ∨
      inpLowAgl.agl < flow_min_agl ∨
      inpLowAgl.flow.quality < cfg0.flow_min_q ∨
      inpLowAgl.validTZ = false ∨
      (dt_flow inpLowAgl > 0.5 ∨ dt_flow inpLowAgl < 1.0e-6) := by
    refine Or.inr (Or.inl ?_)
    show (0.2 : ℝ) < flow_min_agl
    rw [flow_min_agl]; norm_num
  exact ⟨h, C4_gate_failure_frame env2 cfg0 inpLowAgl est00 h⟩

/-- C7, confirmed: with more than `FLOW_TIMEOUT` elapsed since the last
accepted measurement, `flowCheckTimeout` deinitializes (clearing the
initialized flag and the statistics) and emits the critical diagnostic when
initialized, and does nothing — no state change, no diagnostic — when not. -/
theorem C7_timeout (ts : ℕ) (s : FlowState)
    (h : ts - s.time_last_flow > FLOW_TIMEOUT) :
    (s.flowInitialized = true →
        flowCheckTimeout ts s = (flowDeinit s, [LogEvent.timeoutCritical]) ∧
        (flowDeinit s).flowInitialized = false ∧
        (flowDeinit s).flowQStats = QStats.reset) ∧
    (s.flowInitialized = false → flowCheckTimeout ts s = (s, [])) := by
  unfold flowCheckTimeout
  rw [if_pos h]
  constructor
  · intro hi
    rw [hi, if_pos rfl]
    exact ⟨rfl, rfl, rfl⟩
  · intro hi
    simp [hi]

/-- C7 witness: an initialized module, last flow at time 0, checked at time
2000001. -/
theorem C7_witness :
    (2000001 : ℕ) - fsInit.time_last_flow > FLOW_TIMEOUT ∧
    flowCheckTimeout 2000001 fsInit
      = (flowDeinit fsInit, [LogEvent.timeoutCritical]) := by
  have h : (2000001 : ℕ) - fsInit.time_last_flow > FLOW_TIMEOUT := by
    show (2000001 : ℕ) - 0 > 1000000
    norm_num
  exact ⟨h, ((C7_timeout 2000001 fsInit h).1 rfl).1⟩

/-- C8, confirmed: on the nominal scenario — height 1.0, level attitude with
identity rotation, quality 100 above the 50 minimum, valid height,
integration span 0.01 s, flow angle x = 0.01 rad, gyro compensation off —
`flowMeasure` succeeds with navigation-frame x velocity
−(0.01)·1.0/0.01 = −1. -/
theorem C8_nominal_velocity :
    ∃ y, (flowMeasure env2 cfg0 inp0 fs0).1 = some y ∧ y 0 = -1 := by
  refine ⟨![(-1 : ℝ), 0], ?_, rfl⟩
  rw [flowMeasure_inp0]

/-- C5, confirmed: after a successful sample, `flowInit` sets the module
initialized and clears the fault level to NONE exactly when the accumulated
count exceeds `REQ_FLOW_INIT_COUNT = 10`; at count ≤ 10 (in particular, at
exactly 10) the health flags are left as they were. -/
theorem C5_init_threshold (env : Env n) (cfg : FlowConfig) (inp : FlowInput)
    (s : FlowState) (y : Fin 2 → ℝ)
    (h : (flowMeasure env cfg inp s).1 = some y) :
    (((flowMeasure env cfg inp s).2).flowQStats.count > REQ_FLOW_INIT_COUNT →
        (flowInit env cfg inp s).1.flowInitialized = true ∧
        (flowInit env cfg inp s).1.flowFault = FAULT_NONE) ∧
    (((flowMeasure env cfg inp s).2).flowQStats.count ≤ REQ_FLOW_INIT_COUNT →
        (flowInit env cfg inp s).1.flowInitialized = s.flowInitialized ∧
        (flowInit env cfg inp s).1.flowFault = s.flowFault) := by
  have hini := flowMeasure_flowInitialized env cfg inp s
  have hfau := flowMeasure_flowFault env cfg inp s
  rcases hm : flowMeasure env cfg inp s with ⟨o, s'⟩
  rw [hm] at h hini hfau
  simp only at h hini hfau
  subst h
  unfold flowInit
  rw [hm]
  dsimp only
  constructor
  · intro hc
    rw [if_pos hc]
    exact ⟨rfl, rfl⟩
  · intro hc
    rw [if_neg (not_lt.2 hc)]
    exact ⟨hini, hfau⟩

/-- C5 witness: a successful sample on top of ten accumulated ones (leaving
count 11) initializes the module and clears the fault level. -/
theorem C5_witness :
    (flowMeasure env2 cfg0 inp0 fs10).1 = some ![(-1 : ℝ), 0] ∧
    ((flowMeasure env2 cfg0 inp0 fs10).2).flowQStats.count > REQ_FLOW_INIT_COUNT ∧
    (flowInit env2 cfg0 inp0 fs10).1.flowInitialized = true ∧
    (flowInit env2 cfg0 inp0 fs10).1.flowFault = FAULT_NONE := by
  have hm : (flowMeasure env2 cfg0 inp0 fs10).1 = some ![(-1 : ℝ), 0] := by
    rw [flowMeasure_inp0]
  have hc : ((flowMeasure env2 cfg0 inp0 fs10).2).flowQStats.count
      > REQ_FLOW_INIT_COUNT := by
    rw [flowMeasure_inp0]
    show (10 : ℕ) + 1 > 10
    norm_num
  have h := (C5_init_threshold env2 cfg0 inp0 fs10 ![(-1 : ℝ), 0] hm).1 hc
  exact ⟨hm, hc, h.1, h.2⟩

/-- C10, confirmed: every successful `flowMeasure` folds the sample's quality
into the statistics, incrementing the count by exactly one; `flowCorrect`
does the same on its success path (the statistics keep accumulating after
initialization); the statistics are reset by `flowDeinit` and by a rejection
during `flowInit`. -/
theorem C10_stats_accumulation (env : Env n) (cfg : FlowConfig) (inp : FlowInput)
    (s : FlowState) (est : Est n) :
    (∀ y, (flowMeasure env cfg inp s).1 = some y →
        ((flowMeasure env cfg inp s).2).flowQStats
            = s.flowQStats.update inp.flow.quality ∧
        ((flowMeasure env cfg inp s).2).flowQStats.count
            = s.flowQStats.count + 1) ∧
    (∀ y, (flowMeasure env cfg inp est.flow).1 = some y →
        (flowCorrect env cfg inp est).flow.flowQStats
            = est.flow.flowQStats.update inp.flow.quality) ∧
    ((flowDeinit s).flowQStats = QStats.reset) ∧
    ((flowMeasure env cfg inp s).1 = none →
        (flowInit env cfg inp s).1.flowQStats = QStats.reset) := by
  refine ⟨fun y hy => ⟨flowMeasure_some_stats env cfg inp s y hy, ?_⟩,
    fun y hy => flowCorrect_stats env cfg inp est y hy, rfl, ?_⟩
  · rw [flowMeasure_some_stats env cfg inp s y hy]
    rfl
  · intro hn
    rcases hm : flowMeasure env cfg inp s with ⟨o, s'⟩
    rw [hm] at hn
    simp only at hn
    subst hn
    unfold flowInit
    rw [hm]

/-- C10 witness: through `flowCorrect` on the nominal fixture the count goes
from 0 to 1. -/
theorem C10_witness :
    (flowMeasure env2 cfg0 inp0 est00.flow).1 = some ![(-1 : ℝ), 0] ∧
    (flowCorrect env2 cfg0 inp0 est00).flow.flowQStats
      = est00.flow.flowQStats.update inp0.flow.quality ∧
    (flowCorrect env2 cfg0 inp0 est00).flow.flowQStats.count = 1 := by
  have hm : (flowMeasure env2 cfg0 inp0 est00.flow).1 = some ![(-1 : ℝ), 0] := by
    rw [flowMeasure_inp0]
  have h := (C10_stats_accumulation env2 cfg0 inp0 fs0 est00).2.1 ![(-1 : ℝ), 0] hm
  refine ⟨hm, h, ?_⟩
  rw [h]
  rfl

/-- C6, confirmed: per successful cycle, a beta statistic above the table
threshold raises the fault level to at least MINOR and never downgrades a
higher level; a beta within the threshold with a non-zero fault level resets
it fully to NONE; and from NONE the detector never jumps above MINOR. -/
theorem C6_fault_hysteresis (env : Env n) (cfg : FlowConfig) (inp : FlowInput)
    (est : Est n) (y : Fin 2 → ℝ)
    (h : (flowMeasure env cfg inp est.flow).1 = some y) :
    (flowBetaAt env cfg inp est y > env.beta_table →
        FAULT_MINOR ≤ (flowCorrect env cfg inp est).flow.flowFault ∧
        est.flow.flowFault ≤ (flowCorrect env cfg inp est).flow.flowFault) ∧
    (¬ flowBetaAt env cfg inp est y > env.beta_table →
        est.flow.flowFault ≠ FAULT_NONE →
        (flowCorrect env cfg inp est).flow.flowFault = FAULT_NONE) ∧
    (est.flow.flowFault = FAULT_NONE →
        (flowCorrect env cfg inp est).flow.flowFault ≤ FAULT_MINOR) := by
  rw [flowCorrect_flowFault env cfg inp est y h]
  unfold faultUpdate FAULT_MINOR FAULT_NONE
  refine ⟨?_, ?_, ?_⟩
  · intro hb
    rw [if_pos hb]
    split_ifs with hf <;> omega
  · intro hb hne
    rw [if_neg hb, if_pos hne]
  · intro h0
    rw [h0]
    split_ifs <;> omega

/-- C6 witness: on the nominal fixture (beta = 1 above the threshold 1/2,
fault level NONE) the fault level is raised to at least MINOR. -/
theorem C6_witness :
    (flowMeasure env2 cfg0 inp0 est00.flow).1 = some ![(-1 : ℝ), 0] ∧
    flowBetaAt env2 cfg0 inp0 est00 ![(-1 : ℝ), 0] > env2.beta_table ∧
    FAULT_MINOR ≤ (flowCorrect env2 cfg0 inp0 est00).flow.flowFault := by
  have hm : (flowMeasure env2 cfg0 inp0 est00.flow).1 = some ![(-1 : ℝ), 0] := by
    rw [flowMeasure_inp0]
  have hb : flowBetaAt env2 cfg0 inp0 est00 ![(-1 : ℝ), 0] > env2.beta_table := by
    rw [flowBetaAt_zero est00 rfl rfl]
    show (1 : ℝ) > 1/2
    norm_num
  exact ⟨hm, hb,
    ((C6_fault_hysteresis env2 cfg0 inp0 est00 ![(-1 : ℝ), 0] hm).1 hb).1⟩

/-- C3, confirmed: when the measurement succeeds but the post-detection
fault level is at or above the disable threshold, the shared state vector
and covariance are unchanged by `flowCorrect`, while the residual and
variance telemetry is still written. -/
theorem C3_correction_suppressed (env : Env n) (cfg : FlowConfig)
    (inp : FlowInput) (est : Est n) (y : Fin 2 → ℝ)
    (h : (flowMeasure env cfg inp est.flow).1 = some y)
    (hf : env.fault_lvl_disable ≤
        faultUpdate (flowBetaAt env cfg inp est y) env.beta_table
          est.flow.flowFault) :
    (flowCorrect env cfg inp est).x = est.x ∧
    (flowCorrect env cfg inp est).P = est.P ∧
    (flowCorrect env cfg inp est).flow_innov = y - (flowC env).mulVec est.x ∧
    (flowCorrect env cfg inp est).flow_innov_var
        = fun i => flowRmatrix cfg inp i i := by
  obtain ⟨h1, h2⟩ := flowCorrect_suppressed env cfg inp est y h hf
  obtain ⟨h3, h4⟩ := flowCorrect_telemetry env cfg inp est y h
  exact ⟨h1, h2, h3, h4⟩

/-- C3 witness: fault level 3 stays above the disable threshold 2 on a cycle
with beta = 1 above the threshold 1/2, and the state and covariance are
untouched. -/
theorem C3_witness :
    (flowMeasure env2 cfg0 inp0 est03.flow).1 = some ![(-1 : ℝ), 0] ∧
    env2.fault_lvl_disable ≤
      faultUpdate (flowBetaAt env2 cfg0 inp0 est03 ![(-1 : ℝ), 0])
        env2.beta_table est03.flow.flowFault ∧
    (flowCorrect env2 cfg0 inp0 est03).x = est03.x ∧
    (flowCorrect env2 cfg0 inp0 est03).P = est03.P := by
  have hm : (flowMeasure env2 cfg0 inp0 est03.flow).1 = some ![(-1 : ℝ), 0] := by
    rw [flowMeasure_inp0]
  have hb : flowBetaAt env2 cfg0 inp0 est03 ![(-1 : ℝ), 0] = 1 :=
    flowBetaAt_zero est03 rfl rfl
  have hf : env2.fault_lvl_disable ≤
      faultUpdate (flowBetaAt env2 cfg0 inp0 est03 ![(-1 : ℝ), 0])
        env2.beta_table est03.flow.flowFault := by
    rw [hb]
    unfold faultUpdate
    rw [if_pos (by show (1 : ℝ) > 1/2; norm_num)]
    rw [if_neg (by show ¬((3 : ℕ) < FAULT_MINOR); unfold FAULT_MINOR; omega)]
    show (2 : ℕ) ≤ 3
    omega
  have h := C3_correction_suppressed env2 cfg0 inp0 est03 ![(-1 : ℝ), 0] hm hf
  exact ⟨hm, hf, h.1, h.2.1⟩

/-- C1, corrected, counterexample: on a cycle with pre-update covariance
`P = 1`, the published variance is the diagonal of `R` (here 1), while the
diagonal of the residual covariance `S = C·P·Cᵗ + R` is 2 — the claim's
"variance equal to the corresponding diagonal entry of S" fails. -/
theorem C1_counterexample :
    (flowMeasure env2 cfg0 inp0 est01.flow).1 = some ![(-1 : ℝ), 0] ∧
    (flowCorrect env2 cfg0 inp0 est01).flow_innov_var 0 = 1 ∧
    flowS env2 cfg0 inp0 est01 0 0 = 2 ∧
    (flowCorrect env2 cfg0 inp0 est01).flow_innov_var 0
        ≠ flowS env2 cfg0 inp0 est01 0 0 := by
  have hm : (flowMeasure env2 cfg0 inp0 est01.flow).1 = some ![(-1 : ℝ), 0] := by
    rw [flowMeasure_inp0]
  have hv := (flowCorrect_telemetry env2 cfg0 inp0 est01 ![(-1 : ℝ), 0] hm).2
  have h1 : (flowCorrect env2 cfg0 inp0 est01).flow_innov_var 0 = 1 := by
    rw [hv]
    show flowRmatrix cfg0 inp0 0 0 = 1
    rw [flowRmatrix_cfg0]
    exact Matrix.one_apply_eq 0
  have h2 : flowS env2 cfg0 inp0 est01 0 0 = 2 := by
    rw [flowS_oneP est01 rfl]
    rw [Matrix.add_apply, Matrix.one_apply_eq]
    norm_num
  refine ⟨hm, h1, h2, ?_⟩
  rw [h1, h2]
  norm_num

/-- C1, amended: for every successful measurement the published innovation
telemetry holds the residual `r = y − C·x` (against the pre-update state)
and, per axis, the corresponding diagonal entry of the per-cycle noise
covariance `R` — not of `S` — and it is written whether or not the fault
detector subsequently suppresses the correction. -/
theorem C1_innovation_telemetry (env : Env n) (cfg : FlowConfig)
    (inp : FlowInput) (est : Est n) (y : Fin 2 → ℝ)
    (h : (flowMeasure env cfg inp est.flow).1 = some y) :
    (flowCorrect env cfg inp est).flow_innov = y - (flowC env).mulVec est.x ∧
    (flowCorrect env cfg inp est).flow_innov_var
        = fun i => flowRmatrix cfg inp i i :=
  flowCorrect_telemetry env cfg inp est y h

/-- C1 witness: the amended telemetry contract on the nominal fixture. -/
theorem C1_witness :
    (flowMeasure env2 cfg0 inp0 est00.flow).1 = some ![(-1 : ℝ), 0] ∧
    (flowCorrect env2 cfg0 inp0 est00).flow_innov
        = ![(-1 : ℝ), 0] - (flowC env2).mulVec est00.x := by
  have hm : (flowMeasure env2 cfg0 inp0 est00.flow).1 = some ![(-1 : ℝ), 0] := by
    rw [flowMeasure_inp0]
  exact ⟨hm,
    (C1_innovation_telemetry env2 cfg0 inp0 est00 ![(-1 : ℝ), 0] hm).1⟩

/-- C9, corrected, counterexample: with admissible noise coefficients
(base 1 > 0, range 1 ≥ 0, rate 0 ≥ 0) and roll = −π — which the signed
attitude gate does not reject — the measurement succeeds, the fault level
stays below the disable threshold (so the Kalman update is reached), and yet
the computed noise covariance diagonal is `(1 + 1·(−1))² = 0`, not strictly
positive. -/
theorem C9_counterexample :
    0 < cfg9.flow_vxy_stddev ∧ 0 ≤ cfg9.flow_vxy_d_stddev ∧
    0 ≤ cfg9.flow_vxy_r_stddev ∧
    (flowMeasure env2 cfg9 inp9 est00.flow).1.isSome = true ∧
    (flowCorrect env2 cfg9 inp9 est00).flow.flowFault
        < env2.fault_lvl_disable ∧
    flowRmatrix cfg9 inp9 0 0 = 0 := by
  have hsome : (flowMeasure env2 cfg9 inp9 est00.flow).1.isSome = true := by
    rw [flowMeasure_isSome_iff]
    refine ⟨?_, ?_, ?_, ?_, ?_⟩
    · show ¬(-Real.pi > 0.5 ∨ (0 : ℝ) > 0.5)
      rintro (hr | hp)
      · have := Real.pi_pos
        linarith
      · norm_num at hp
    · show ¬((1 : ℝ) < flow_min_agl)
      rw [flow_min_agl]; norm_num
    · show ¬((100 : ℝ) < (50 : ℝ))
      norm_num
    · show ¬(true = false)
      simp
    · show ¬(dt_flow inp9 > 0.5 ∨ dt_flow inp9 < 1.0e-6)
      have : dt_flow inp9 = 0.01 := by
        show (10000 : ℝ) / 1.0e6 = 0.01
        norm_num
      rw [this]; norm_num
  refine ⟨by show (0:ℝ) < 1; norm_num, by show (0:ℝ) ≤ 1; norm_num,
    by show (0:ℝ) ≤ 0; norm_num, hsome, ?_, ?_⟩
  · obtain ⟨y9, hy9⟩ := Option.isSome_iff_exists.1 hsome
    rw [flowCorrect_flowFault env2 cfg9 inp9 est00 y9 hy9]
    show faultUpdate _ _ est00.flow.flowFault < 2
    have h0 : est00.flow.flowFault = 0 := rfl
    rw [h0]
    unfold faultUpdate FAULT_MINOR FAULT_NONE
    split_ifs <;> omega
  · rw [flowRmatrix, Matrix.diagonal_apply_eq]
    have hstd : flowStddev cfg9 inp9 = 0 := by
      unfold flowStddev flow_d rot_rate_norm
      show (1 : ℝ) + 1 * ((1 : ℝ) * Real.cos (-Real.pi) * Real.cos 0)
          + 0 * Real.sqrt ((0:ℝ) * 0 + 0 * 0 + 0 * 0) = 0
      rw [Real.cos_neg, Real.cos_pi, Real.cos_zero]
      norm_num
    rw [hstd]
    ring

/-- C9, amended: the diagonal entries of the per-cycle noise covariance are
strictly positive on every successful measurement, provided the base
standard deviation is positive, the range/rate coefficients are
non-negative, and roll and pitch lie within [−π/2, π/2] (so that the ground
distance `d` is non-negative); without the attitude restriction the signed
gate admits attitudes with `cos < 0` that can cancel the base term. -/
theorem C9_noise_positive (env : Env n) (cfg : FlowConfig) (inp : FlowInput)
    (s : FlowState) (y : Fin 2 → ℝ)
    (h : (flowMeasure env cfg inp s).1 = some y)
    (hbase : 0 < cfg.flow_vxy_stddev)
    (hdc : 0 ≤ cfg.flow_vxy_d_stddev)
    (hrc : 0 ≤ cfg.flow_vxy_r_stddev)
    (hroll : |inp.att.roll| ≤ Real.pi / 2)
    (hpitch : |inp.att.pitch| ≤ Real.pi / 2) :
    ∀ i, 0 < flowRmatrix cfg inp i i := by
  have hg : flowGatesPass cfg inp := by
    by_contra hng
    have h0 := (flowMeasure_none_iff env cfg inp s).2 hng
    rw [h0] at h
    exact Option.noConfusion h
  have hagl : flow_min_agl ≤ inp.agl := not_lt.1 hg.2.1
  have hagl0 : (0 : ℝ) ≤ inp.agl :=
    le_trans (by rw [flow_min_agl]; norm_num) hagl
  have hcr : 0 ≤ Real.cos inp.att.roll :=
    Real.cos_nonneg_of_mem_Icc (Set.mem_Icc.2 (abs_le.1 hroll))
  have hcp : 0 ≤ Real.cos inp.att.pitch :=
    Real.cos_nonneg_of_mem_Icc (Set.mem_Icc.2 (abs_le.1 hpitch))
  have hd0 : 0 ≤ flow_d inp := by
    unfold flow_d
    exact mul_nonneg (mul_nonneg hagl0 hcr) hcp
  have hstd : 0 < flowStddev cfg inp := by
    unfold flowStddev
    have t1 : 0 ≤ cfg.flow_vxy_d_stddev * flow_d inp := mul_nonneg hdc hd0
    have t2 : 0 ≤ cfg.flow_vxy_r_stddev * rot_rate_norm inp := by
      refine mul_nonneg hrc ?_
      unfold rot_rate_norm
      exact Real.sqrt_nonneg _
    linarith
  intro i
  rw [flowRmatrix, Matrix.diagonal_apply_eq]
  exact mul_pos hstd hstd

/-- C9 witness: the amended positivity on the nominal fixture. -/
theorem C9_witness :
    (flowMeasure env2 cfg0 inp0 fs0).1 = some ![(-1 : ℝ), 0] ∧
    (0 : ℝ) < cfg0.flow_vxy_stddev ∧
    |inp0.att.roll| ≤ Real.pi / 2 ∧
    0 < flowRmatrix cfg0 inp0 0 0 := by
  have hm : (flowMeasure env2 cfg0 inp0 fs0).1 = some ![(-1 : ℝ), 0] := by
    rw [flowMeasure_inp0]
  have hb : (0 : ℝ) < cfg0.flow_vxy_stddev := by
    show (0 : ℝ) < 1; norm_num
  have hr : |inp0.att.roll| ≤ Real.pi / 2 := by
    show |(0 : ℝ)| ≤ Real.pi / 2
    rw [abs_zero]
    exact le_of_lt Real.pi_div_two_pos
  have hp : |inp0.att.pitch| ≤ Real.pi / 2 := by
    show |(0 : ℝ)| ≤ Real.pi / 2
    rw [abs_zero]
    exact le_of_lt Real.pi_div_two_pos
  exact ⟨hm, hb, hr,
    C9_noise_positive env2 cfg0 inp0 fs0 ![(-1 : ℝ), 0] hm hb
      (by show (0:ℝ) ≤ 0; norm_num) (by show (0:ℝ) ≤ 0; norm_num) hr hp 0⟩

end LPE
